import Mathlib

/-!
Shallow embedding of the yarlang runtime value library
(src/runtime/value.h, src/runtime/value.c).

The runtime works on heap-boxed tagged values (struct Value): Nil, Bool,
Number (an IEEE-754 double), String (an owned NUL-terminated byte sequence)
and Function (an entry address, a native flag and an arity).  Operators and
built-ins pattern-match on the tag and either produce a value or route
through yar_error, which prints one diagnostic line to stderr and exits the
process with status 1.

Modelling choices, stated once here:
  * C byte strings are `List Nat` holding the byte values before the NUL
    terminator (the runtime never stores an interior NUL: yar_string copies
    with strcpy up to the terminator).
  * A double is `FP`: either NaN or a finite value carried as the exact
    rational number its bits denote (`Q`, an integer pair kept unreduced so
    every arithmetic step is kernel-computable).  Signed zero, infinities
    and the binary64 rounding of arithmetic results are abstracted away;
    none of the properties examined here depend on them.  NaN propagation
    and the IEEE `==` rules, which several properties do depend on, are
    modelled exactly.
  * A fallible operation returns `RtResult`: a produced value, a fatal
    diagnostic (the stderr line plus the exit status, from yar_error, which
    never returns), or `undef` for C undefined behavior (the cast of an
    unrepresentable double to long, and the integer `%` with divisor 0).
-/

namespace Yarlang

/-- Byte list of an ASCII string literal (the contents of a C string). -/
def ascii (s : String) : List Nat := s.data.map Char.toNat

/-- Exact rational scalar, the real number denoted by a finite double.  Kept
as a raw integer pair (no gcd normalisation); every constructor used by the
embedding keeps `den` positive. -/
structure Q where
  num : Int
  den : Int
deriving DecidableEq

/-- Numeric equality of two rationals by cross multiplication: the model of
comparing the real values of two finite doubles with `==`. -/
def Q.eqb (a b : Q) : Bool := a.num * b.den == b.num * a.den

/-- Numeric strict order by cross multiplication (valid for positive
denominators, which the embedding maintains). -/
def Q.blt (a b : Q) : Bool := decide (a.num * b.den < b.num * a.den)

/-- Exact rational sum. -/
def Q.add (a b : Q) : Q := ⟨a.num * b.den + b.num * a.den, a.den * b.den⟩

/-- Exact rational product. -/
def Q.mul (a b : Q) : Q := ⟨a.num * b.num, a.den * b.den⟩

/-- Exact rational quotient; the sign moves into the numerator so that the
denominator stays positive. -/
def Q.div (a b : Q) : Q :=
  let n := a.num * b.den
  let d := a.den * b.num
  if d < 0 then ⟨-n, -d⟩ else ⟨n, d⟩

/-- Negation. -/
def Q.neg (a : Q) : Q := ⟨-a.num, a.den⟩

/-- The rational holding an integer value. -/
def Q.ofInt (i : Int) : Q := ⟨i, 1⟩

/-- Truncation toward zero (the C cast `(long)d` applied to a finite double
value, before the range check). -/
def Q.trunc (a : Q) : Int :=
  if 0 ≤ a.num then Int.ofNat (a.num.toNat / a.den.toNat)
  else - Int.ofNat ((-a.num).toNat / a.den.toNat)

/-- Floor, used by the decimal/binary rounding helpers below. -/
def Q.floor (a : Q) : Int :=
  if 0 ≤ a.num then Int.ofNat (a.num.toNat / a.den.toNat)
  else - Int.ofNat (((-a.num).toNat + a.den.toNat - 1) / a.den.toNat)

/-- Round to the nearest integer, ties to even: the correct rounding used by
the C library when converting a value to a fixed number of decimal digits,
and by IEEE-754 when rounding a real to a representable double. -/
def Q.roundHalfEven (a : Q) : Int :=
  let f := a.floor
  let r2 := 2 * (a.num - f * a.den)
  if r2 < a.den then f
  else if a.den < r2 then f + 1
  else if f % 2 = 0 then f else f + 1

/-- Model of a C double: NaN, or a finite value as the exact rational its
bits denote. -/
inductive FP where
  | nan : FP
  | fin : Q → FP
deriving DecidableEq

/-- IEEE-754 `==` on doubles: NaN compares unequal to everything, NaN
itself included; finite values compare by numeric value. -/
def FP.ieeeEq : FP → FP → Bool
  | .fin a, .fin b => Q.eqb a b
  | _, _ => false

/-- Double addition: NaN propagates, finite values add exactly. -/
def FP.add : FP → FP → FP
  | .fin a, .fin b => .fin (a.add b)
  | _, _ => .nan

/-- Double division: NaN propagates, finite values divide exactly.  The
finite/zero case (±inf or NaN in IEEE) is collapsed to NaN; yar_divide
rejects a divisor that compares equal to 0 before ever dividing, so that
case is unreachable from the code under study. -/
def FP.div : FP → FP → FP
  | .fin a, .fin b => if Q.eqb b ⟨0, 1⟩ then .nan else .fin (a.div b)
  | _, _ => .nan

/-- The C cast `(long)d` of a double: undefined (`none`) for NaN and for a
value whose truncation does not fit a 64-bit signed long. -/
def FP.toLong : FP → Option Int
  | .nan => none
  | .fin q =>
    let t := q.trunc
    if t < -(2 ^ 63) ∨ 2 ^ 63 ≤ t then none else some t

/-- C integer division on longs: quotient truncated toward zero. -/
def cQuot (i j : Int) : Int :=
  let m := Int.ofNat (i.natAbs / j.natAbs)
  if (0 ≤ i) = (0 ≤ j) then m else -m

/-- C integer remainder `%` on longs: `i - (i / j) * j` with the truncated
quotient.  Meaningful only for `j ≠ 0`; the caller maps `j = 0` to undefined
behavior. -/
def cRem (i j : Int) : Int := i - cQuot i j * j

/-- The runtime value (struct Value): a closed tagged union.  A string
payload is its byte content; a function payload is the triple of the opaque
entry address, the native flag and the declared arity (struct
FunctionValue). -/
inductive Value where
  | nil : Value
  | bool : Bool → Value
  | number : FP → Value
  | string : List Nat → Value
  | function : Nat → Bool → Int → Value
deriving DecidableEq

/-- The numeric tag stored in the `type` field (enum ValueType:
VAL_NIL = 0, VAL_BOOL, VAL_NUMBER, VAL_STRING, VAL_FUNCTION). -/
def tagOf : Value → Nat
  | .nil => 0
  | .bool _ => 1
  | .number _ => 2
  | .string _ => 3
  | .function _ _ _ => 4

/-- Constructor yar_nil. -/
def yar_nil : Value := .nil

/-- Constructor yar_bool. -/
def yar_bool (b : Bool) : Value := .bool b

/-- Constructor yar_number. -/
def yar_number (d : FP) : Value := .number d

/-- Constructor yar_string: copies the input bytes (strcpy into fresh
storage), so the payload equals the input byte content. -/
def yar_string (s : List Nat) : Value := .string s

/-- Constructor yar_function: stores the triple unvalidated. -/
def yar_function (ptr : Nat) (is_native : Bool) (arity : Int) : Value :=
  .function ptr is_native arity

/-- Predicate yar_is_nil: `v->type == VAL_NIL`. -/
def yar_is_nil (v : Value) : Bool := tagOf v == 0

/-- Predicate yar_is_bool: `v->type == VAL_BOOL`. -/
def yar_is_bool (v : Value) : Bool := tagOf v == 1

/-- Predicate yar_is_number: `v->type == VAL_NUMBER`. -/
def yar_is_number (v : Value) : Bool := tagOf v == 2

/-- Predicate yar_is_string: `v->type == VAL_STRING`. -/
def yar_is_string (v : Value) : Bool := tagOf v == 3

/-- Predicate yar_is_function: `v->type == VAL_FUNCTION`. -/
def yar_is_function (v : Value) : Bool := tagOf v == 4

/-- Read of the union field `as.boolean`; meaningful only when the tag is
VAL_BOOL, which holds at both use sites (yar_is_truthy after the bool
check, and yar_neq on the result of yar_eq). -/
def asBoolean : Value → Bool
  | .bool b => b
  | _ => false

/-- Models yar_is_truthy: nil is false, a bool is its payload, every other
value is truthy. -/
def yar_is_truthy (v : Value) : Bool :=
  if yar_is_nil v then false
  else if yar_is_bool v then asBoolean v
  else true

/-- The switch in yar_type_name over the numeric tag, including the default
branch mapping a tag outside the enum to "unknown". -/
def typeNameOfTag (t : Nat) : List Nat :=
  if t = 0 then ascii "nil"
  else if t = 1 then ascii "bool"
  else if t = 2 then ascii "number"
  else if t = 3 then ascii "string"
  else if t = 4 then ascii "function"
  else ascii "unknown"

/-- Models yar_type_name. -/
def yar_type_name (v : Value) : List Nat := typeNameOfTag (tagOf v)

/-- Outcome of a runtime operation: a produced value, a fatal diagnostic
(stderr bytes and process exit status), or C undefined behavior. -/
inductive RtResult (α : Type) where
  | ok : α → RtResult α
  | fatal : List Nat → Nat → RtResult α
  | undef : RtResult α
deriving DecidableEq

/-- Models yar_error: writes "Runtime error: ", the formatted message and a
newline to stderr, then calls exit(1).  Control never returns, so the value
the C caller nominally returns afterwards is unobservable and is not part
of the model. -/
def yar_error {α : Type} (msg : List Nat) : RtResult α :=
  .fatal (ascii "Runtime error: " ++ msg ++ [10]) 1

/-- Models yar_add: number+number sums, string+string concatenates into a
new string (strcpy then strcat), anything else is a fatal error citing both
operand type names. -/
def yar_add (a b : Value) : RtResult Value :=
  match a, b with
  | .number x, .number y => .ok (yar_number (FP.add x y))
  | .string x, .string y => .ok (.string (x ++ y))
  | _, _ =>
    yar_error (ascii "Cannot add " ++ yar_type_name a ++ ascii " and " ++
      yar_type_name b)

/-- Models yar_divide: on two numbers the divisor is compared with 0 (IEEE
`==`) before the division; equality is the fatal error "Division by zero",
otherwise the quotient is produced.  A non-number operand is a fatal type
error. -/
def yar_divide (a b : Value) : RtResult Value :=
  match a, b with
  | .number x, .number y =>
    if FP.ieeeEq y (.fin ⟨0, 1⟩) then yar_error (ascii "Division by zero")
    else .ok (yar_number (FP.div x y))
  | _, _ =>
    yar_error (ascii "Cannot divide " ++ yar_type_name a ++ ascii " and " ++
      yar_type_name b)

/-- Models yar_modulo: on two numbers both operands are cast to long
(truncation toward zero; undefined for NaN or out-of-range values) and the
C remainder is taken — with no zero check, so a zero divisor reaches the
undefined `%`.  The conversion of the long result back to double is exact
in the model (a remainder can exceed 2^53 in magnitude only for operands
the original cast already made undefined or that no test here uses).  A
non-number operand is a fatal type error. -/
def yar_modulo (a b : Value) : RtResult Value :=
  match a, b with
  | .number x, .number y =>
    match FP.toLong x, FP.toLong y with
    | some i, some j =>
      if j = 0 then .undef else .ok (yar_number (.fin (Q.ofInt (cRem i j))))
    | _, _ => .undef
  | _, _ =>
    yar_error (ascii "Cannot modulo " ++ yar_type_name a ++ ascii " and " ++
      yar_type_name b)

/-- Models yar_eq: differing tags compare false with no error; equal tags
compare Nil ≡ Nil true, Bool by payload, Number by IEEE `==`, String by
byte content (strcmp == 0), and the switch's default branch makes two
Function values compare false. -/
def yar_eq (a b : Value) : Value :=
  if tagOf a ≠ tagOf b then yar_bool false
  else
    match a, b with
    | .nil, .nil => yar_bool true
    | .bool x, .bool y => yar_bool (x == y)
    | .number x, .number y => yar_bool (FP.ieeeEq x y)
    | .string x, .string y => yar_bool (x == y)
    | _, _ => yar_bool false

/-- Models yar_neq: the boolean negation of yar_eq's payload. -/
def yar_neq (a b : Value) : Value := yar_bool (!(asBoolean (yar_eq a b)))

/-- Models yar_len: the byte length of a string as a number, a fatal error
naming the actual type otherwise. -/
def yar_len (v : Value) : RtResult Value :=
  match v with
  | .string s => .ok (yar_number (.fin (Q.ofInt (Int.ofNat s.length))))
  | _ => yar_error (ascii "len() requires string, got " ++ yar_type_name v)

/-- Models yar_type: a fresh string holding the type name. -/
def yar_type (v : Value) : Value := yar_string (yar_type_name v)

/-- Floor of log base 10 (fuel-driven so the kernel can run it); 0 at 0. -/
def natLog10Aux : Nat → Nat → Nat
  | 0, _ => 0
  | fuel + 1, n => if n < 10 then 0 else natLog10Aux fuel (n / 10) + 1

/-- Floor of log base 10 of a positive natural. -/
def natLog10 (n : Nat) : Nat := natLog10Aux n n

/-- Floor of log base 2 (fuel-driven); 0 at 0. -/
def natLog2Aux : Nat → Nat → Nat
  | 0, _ => 0
  | fuel + 1, n => if n < 2 then 0 else natLog2Aux fuel (n / 2) + 1

/-- Floor of log base 2 of a positive natural. -/
def natLog2 (n : Nat) : Nat := natLog2Aux n n

/-- The rational 10^z for an integer exponent. -/
def qpow10 (z : Int) : Q :=
  if 0 ≤ z then ⟨(10 : Int) ^ z.toNat, 1⟩ else ⟨1, (10 : Int) ^ (-z).toNat⟩

/-- The rational 2^z for an integer exponent. -/
def qpow2 (z : Int) : Q :=
  if 0 ≤ z then ⟨(2 : Int) ^ z.toNat, 1⟩ else ⟨1, (2 : Int) ^ (-z).toNat⟩

/-- Floor of log base 10 of a positive rational: digit counts of numerator
and denominator give two candidates and a comparison picks the right one. -/
def Q.ilog10 (q : Q) : Int :=
  let c : Int := Int.ofNat (natLog10 q.num.toNat) - Int.ofNat (natLog10 q.den.toNat)
  if Q.blt q (qpow10 c) then c - 1 else c

/-- Floor of log base 2 of a positive rational. -/
def Q.ilog2 (q : Q) : Int :=
  let c : Int := Int.ofNat (natLog2 q.num.toNat) - Int.ofNat (natLog2 q.den.toNat)
  if Q.blt q (qpow2 c) then c - 1 else c

/-- The six decimal digit characters of a natural below 10^6. -/
def sixDigits (n : Nat) : List Nat :=
  [48 + n / 100000 % 10, 48 + n / 10000 % 10, 48 + n / 1000 % 10,
   48 + n / 100 % 10, 48 + n / 10 % 10, 48 + n % 10]

/-- Decimal digit characters of a natural (fuel-driven). -/
def natDigitsAux : Nat → Nat → List Nat
  | 0, _ => []
  | fuel + 1, n =>
    if n < 10 then [48 + n] else natDigitsAux fuel (n / 10) ++ [48 + n % 10]

/-- Decimal digit characters of a natural. -/
def natDigits (n : Nat) : List Nat := natDigitsAux (n + 1) n

/-- Remove trailing '0' characters (the %g conversion strips them). -/
def stripZeros (l : List Nat) : List Nat :=
  (l.reverse.dropWhile (fun c => c == 48)).reverse

/-- The printf "%g" conversion (C11 7.21.6.1) with the default precision 6,
on a positive finite value: round to six significant decimal digits, giving
digits d1…d6 and a decimal exponent X; use %e style when X < -4 or X ≥ 6
and %f style otherwise, stripping trailing zeros and a bare decimal point;
the %e exponent carries a sign and at least two digits. -/
def fmtGPos (q : Q) : List Nat :=
  let x0 : Int := Q.ilog10 q
  let n0 : Int := Q.roundHalfEven (Q.mul q (qpow10 (5 - x0)))
  let n : Int := if n0 = 1000000 then 100000 else n0
  let x : Int := if n0 = 1000000 then x0 + 1 else x0
  let ds := sixDigits n.toNat
  if x < -4 ∨ 6 ≤ x then
    let fr := stripZeros (ds.drop 1)
    let mant := if fr = [] then ds.take 1 else ds.take 1 ++ [46] ++ fr
    let ea := x.natAbs
    let eds := if ea < 10 then [48, 48 + ea] else natDigits ea
    mant ++ [101, if x < 0 then 45 else 43] ++ eds
  else if 0 ≤ x then
    let ip := ds.take (x.toNat + 1)
    let fr := stripZeros (ds.drop (x.toNat + 1))
    if fr = [] then ip else ip ++ [46] ++ fr
  else
    let fr := stripZeros (List.replicate (x.natAbs - 1) 48 ++ ds)
    [48, 46] ++ fr

/-- The text printf("%g", d) produces: "nan" for NaN, "0" for zero, a minus
sign plus the positive rendering for a negative value. -/
def fmtG : FP → List Nat
  | .nan => ascii "nan"
  | .fin q =>
    if q.num = 0 then ascii "0"
    else if q.num < 0 then 45 :: fmtGPos ⟨-q.num, q.den⟩
    else fmtGPos q

/-- Models yar_print: the bytes the switch writes to stdout. -/
def yar_print : Value → List Nat
  | .nil => ascii "nil"
  | .bool b => if b then ascii "true" else ascii "false"
  | .number d => fmtG d
  | .string s => s
  | .function _ _ _ => ascii "<function>"

/-- Models yar_println: yar_print followed by one newline. -/
def yar_println (v : Value) : List Nat := yar_print v ++ [10]

/-- Spec-side definition (follows the spec's words, for the round-trip claim
about printing): round a positive rational to the nearest IEEE-754 binary64
value — 53-bit significand, ties to even — in the normal range, which
covers every value appearing in this development. -/
def specRoundPos (x : Q) : Q :=
  let e : Int := Q.ilog2 x - 52
  let m : Int := Q.roundHalfEven (Q.mul x (qpow2 (-e)))
  let m2 : Int := if m = 2 ^ 53 then 2 ^ 52 else m
  let e2 : Int := if m = 2 ^ 53 then e + 1 else e
  Q.mul (Q.ofInt m2) (qpow2 e2)

/-- Spec-side definition: the IEEE-754 binary64 value nearest a rational
(ties to even), i.e. what a correctly rounding decimal-to-double conversion
returns for that decimal value. -/
def specRoundToDouble (x : Q) : Q :=
  if x.num = 0 then Q.ofInt 0
  else if x.num < 0 then Q.neg (specRoundPos ⟨-x.num, x.den⟩)
  else specRoundPos x

/-- Character is a decimal digit. -/
def isDigitChar (c : Nat) : Bool := 48 ≤ c && c ≤ 57

/-- Value of a list of decimal digit characters. -/
def digitsVal (l : List Nat) : Nat := l.foldl (fun acc c => acc * 10 + (c - 48)) 0

/-- Spec-side helper: parse an optional exponent suffix "e[±]digits". -/
def parseExpSuffix : List Nat → Option (Int × List Nat)
  | 101 :: 45 :: r =>
    let ds := r.takeWhile isDigitChar
    if ds = [] then none else some (-(Int.ofNat (digitsVal ds)), r.drop ds.length)
  | 101 :: 43 :: r =>
    let ds := r.takeWhile isDigitChar
    if ds = [] then none else some (Int.ofNat (digitsVal ds), r.drop ds.length)
  | 101 :: r =>
    let ds := r.takeWhile isDigitChar
    if ds = [] then none else some (Int.ofNat (digitsVal ds), r.drop ds.length)
  | l => some (0, l)

/-- Spec-side definition: the exact rational a decimal text of the shape
[−] digits [ "." digits ] [ "e" [±] digits ] denotes (the grammar %g
emits); `none` when the text is not of that shape. -/
def specDecimalValue (s : List Nat) : Option Q :=
  let neg : Bool := match s with | 45 :: _ => true | _ => false
  let s1 : List Nat := match s with | 45 :: r => r | _ => s
  let ip := s1.takeWhile isDigitChar
  let r1 := s1.drop ip.length
  if ip = [] then none
  else
    let fd : List Nat := match r1 with
      | 46 :: r => r.takeWhile isDigitChar
      | _ => []
    let r2 : List Nat := match r1 with
      | 46 :: r => r.drop (r.takeWhile isDigitChar).length
      | _ => r1
    match parseExpSuffix r2 with
    | none => none
    | some (ex, r3) =>
      if r3 = [] then
        let mag : Q := ⟨Int.ofNat (digitsVal (ip ++ fd)), (10 : Int) ^ fd.length⟩
        let v := Q.mul mag (qpow10 ex)
        some (if neg then Q.neg v else v)
      else none

/-! Helper lemmas shared by the claim theorems. -/

/-- Boolean equality tests with a lawful BEq instance are symmetric. -/
theorem lawfulBeqComm {α : Type} [BEq α] [LawfulBEq α] (i j : α) :
    (i == j) = (j == i) := by
  by_cases h : i = j
  · subst h; rfl
  · rw [beq_eq_false_iff_ne.mpr h, beq_eq_false_iff_ne.mpr (Ne.symm h)]

/-- IEEE equality on the double model is symmetric. -/
theorem ieeeEqComm (x y : FP) : FP.ieeeEq x y = FP.ieeeEq y x := by
  cases x <;> cases y <;> first | rfl | exact lawfulBeqComm _ _

/-- yar_eq is symmetric in its two operands. -/
theorem yar_eq_comm (a b : Value) : yar_eq a b = yar_eq b a := by
  cases a <;> cases b <;>
    first
    | rfl
    | exact congrArg yar_bool (lawfulBeqComm _ _)
    | exact congrArg yar_bool (ieeeEqComm _ _)

/-- C1: truthiness is computed by exactly one rule: Nil is false, Bool(b) is
b, and every other variant — numbers (zero included), strings (the empty
string included) and functions — is unconditionally true. -/
theorem C1_truthiness :
    yar_is_truthy Value.nil = false ∧
    (∀ b, yar_is_truthy (Value.bool b) = b) ∧
    (∀ d, yar_is_truthy (Value.number d) = true) ∧
    (∀ s, yar_is_truthy (Value.string s) = true) ∧
    (∀ p n a, yar_is_truthy (Value.function p n a) = true) :=
  ⟨rfl, fun _ => rfl, fun _ => rfl, fun _ => rfl, fun _ _ _ => rfl⟩

/-- C2: yar_eq returns Bool(false) on differing tags with no error; on equal
tags it returns true for Nil/Nil, compares Bool by payload, Number by IEEE
== (a NaN operand is never equal), String by byte content, and two Function
values compare false even with identical payloads. -/
theorem C2_eq_table :
    (∀ a b, tagOf a ≠ tagOf b → yar_eq a b = Value.bool false) ∧
    yar_eq Value.nil Value.nil = Value.bool true ∧
    (∀ x y, yar_eq (Value.bool x) (Value.bool y) = Value.bool (x == y)) ∧
    (∀ x y, yar_eq (Value.number x) (Value.number y) =
      Value.bool (FP.ieeeEq x y)) ∧
    (∀ y, yar_eq (Value.number FP.nan) (Value.number y) = Value.bool false) ∧
    (∀ x y, yar_eq (Value.string x) (Value.string y) = Value.bool (x == y)) ∧
    (∀ p n a p2 n2 a2,
      yar_eq (Value.function p n a) (Value.function p2 n2 a2) =
        Value.bool false) := by
  refine ⟨fun a b h => ?_, rfl, fun x y => rfl, fun x y => rfl, fun y => ?_,
    fun x y => rfl, fun p n a p2 n2 a2 => rfl⟩
  · unfold yar_eq
    rw [if_pos h]
    rfl
  · cases y <;> rfl

/-- Witness for C2 at a concrete tag mismatch. -/
theorem C2_eq_table_w :
    yar_eq Value.nil (Value.bool true) = Value.bool false :=
  C2_eq_table.1 Value.nil (Value.bool true) (by decide)

/-- C3: add sums two numbers, concatenates two strings into a new string,
and for every other combination calls the fatal error channel with a
message citing both operand type names; 2+3 = 5, "ab"+"cd" = "abcd", and
number+string ends the process with a non-zero status. -/
theorem C3_add :
    (∀ x y, yar_add (Value.number x) (Value.number y) =
      RtResult.ok (Value.number (FP.add x y))) ∧
    (∀ x y, yar_add (Value.string x) (Value.string y) =
      RtResult.ok (Value.string (x ++ y))) ∧
    (∀ a b, (yar_is_number a && yar_is_number b) = false →
      (yar_is_string a && yar_is_string b) = false →
      yar_add a b = yar_error (ascii "Cannot add " ++ yar_type_name a ++
        ascii " and " ++ yar_type_name b)) ∧
    yar_add (Value.number (FP.fin ⟨2, 1⟩)) (Value.number (FP.fin ⟨3, 1⟩)) =
      RtResult.ok (Value.number (FP.fin ⟨5, 1⟩)) ∧
    yar_add (Value.string (ascii "ab")) (Value.string (ascii "cd")) =
      RtResult.ok (Value.string (ascii "abcd")) ∧
    (∃ line code,
      yar_add (Value.number (FP.fin ⟨1, 1⟩)) (Value.string (ascii "x")) =
        RtResult.fatal line code ∧ code ≠ 0) := by
  refine ⟨fun x y => rfl, fun x y => rfl, fun a b h1 h2 => ?_, by decide,
    by decide, ⟨_, 1, rfl, by decide⟩⟩
  cases a <;> cases b <;>
    first
    | rfl
    | simp [yar_is_number, yar_is_string, tagOf] at h1 h2

/-- Witness for C3 at a concrete mismatched pair. -/
theorem C3_add_w :
    yar_add (Value.number (FP.fin ⟨1, 1⟩)) (Value.string (ascii "x")) =
      yar_error (ascii "Cannot add " ++
        yar_type_name (Value.number (FP.fin ⟨1, 1⟩)) ++ ascii " and " ++
        yar_type_name (Value.string (ascii "x"))) :=
  C3_add.2.2.1 (Value.number (FP.fin ⟨1, 1⟩)) (Value.string (ascii "x"))
    (by decide) (by decide)

/-- C4: divide on two numbers tests the divisor against zero (IEEE ==)
before dividing; a zero divisor routes to the fatal channel with exactly
"Division by zero" and exit status 1 (non-zero), a non-zero divisor yields
the quotient. -/
theorem C4_divide :
    (∀ x y, FP.ieeeEq y (FP.fin ⟨0, 1⟩) = true →
      yar_divide (Value.number x) (Value.number y) =
        yar_error (ascii "Division by zero") ∧
      yar_divide (Value.number x) (Value.number y) =
        RtResult.fatal (ascii "Runtime error: Division by zero" ++ [10]) 1) ∧
    (∀ x y, FP.ieeeEq y (FP.fin ⟨0, 1⟩) = false →
      yar_divide (Value.number x) (Value.number y) =
        RtResult.ok (Value.number (FP.div x y))) ∧
    (∀ msg, @yar_error Value msg =
      RtResult.fatal (ascii "Runtime error: " ++ msg ++ [10]) 1) ∧
    yar_divide (Value.number (FP.fin ⟨10, 1⟩)) (Value.number (FP.fin ⟨0, 1⟩)) =
      RtResult.fatal (ascii "Runtime error: Division by zero" ++ [10]) 1 := by
  refine ⟨fun x y h => ⟨?_, ?_⟩, fun x y h => ?_, fun msg => rfl, by decide⟩
  · simp only [yar_divide, h, if_pos]
  · simp only [yar_divide, h, if_pos]
    decide
  · simp only [yar_divide, h, Bool.false_eq_true, if_false]
    rfl

/-- Witness for C4 at divisor 0 and at divisor 2. -/
theorem C4_divide_w :
    (yar_divide (Value.number (FP.fin ⟨10, 1⟩))
        (Value.number (FP.fin ⟨0, 1⟩)) =
      yar_error (ascii "Division by zero")) ∧
    yar_divide (Value.number (FP.fin ⟨10, 1⟩)) (Value.number (FP.fin ⟨2, 1⟩)) =
      RtResult.ok (Value.number (FP.div (FP.fin ⟨10, 1⟩) (FP.fin ⟨2, 1⟩))) :=
  ⟨(C4_divide.1 (FP.fin ⟨10, 1⟩) (FP.fin ⟨0, 1⟩) (by decide)).1,
    C4_divide.2.1 (FP.fin ⟨10, 1⟩) (FP.fin ⟨2, 1⟩) (by decide)⟩

/-- C5: modulo truncates both number operands toward zero (the long casts)
and takes the C integer remainder of the truncations; 7.9 mod 2.5 gives 1;
any non-number operand is a fatal error. -/
theorem C5_modulo :
    (∀ x y i j, FP.toLong x = some i → FP.toLong y = some j → j ≠ 0 →
      yar_modulo (Value.number x) (Value.number y) =
        RtResult.ok (Value.number (FP.fin (Q.ofInt (cRem i j))))) ∧
    yar_modulo (Value.number (FP.fin ⟨79, 10⟩))
        (Value.number (FP.fin ⟨25, 10⟩)) =
      RtResult.ok (Value.number (FP.fin ⟨1, 1⟩)) ∧
    (∀ a b, (yar_is_number a && yar_is_number b) = false →
      yar_modulo a b = yar_error (ascii "Cannot modulo " ++ yar_type_name a ++
        ascii " and " ++ yar_type_name b)) := by
  refine ⟨fun x y i j hx hy hj => ?_, by decide, fun a b h => ?_⟩
  · simp only [yar_modulo, hx, hy, hj, if_neg, ite_false]
    rfl
  · cases a <;> cases b <;>
      first
      | rfl
      | simp [yar_is_number, tagOf] at h

/-- Witness for C5 at 7.9 mod 2.5 (truncations 7 and 2) and at a
non-number operand. -/
theorem C5_modulo_w :
    yar_modulo (Value.number (FP.fin ⟨79, 10⟩))
        (Value.number (FP.fin ⟨25, 10⟩)) =
      RtResult.ok (Value.number (FP.fin (Q.ofInt (cRem 7 2)))) ∧
    yar_modulo Value.nil (Value.bool true) =
      yar_error (ascii "Cannot modulo " ++ yar_type_name Value.nil ++
        ascii " and " ++ yar_type_name (Value.bool true)) :=
  ⟨C5_modulo.1 (FP.fin ⟨79, 10⟩) (FP.fin ⟨25, 10⟩) 7 2 (by decide) (by decide)
      (by decide),
    C5_modulo.2.2 Value.nil (Value.bool true) (by decide)⟩

/-- C6: len of a string is its byte length as a number ("hello" has length
5); len of anything else is a fatal error naming the actual type, ending
the process. -/
theorem C6_len :
    (∀ s, yar_len (Value.string s) =
      RtResult.ok (Value.number (FP.fin (Q.ofInt (Int.ofNat s.length))))) ∧
    yar_len (Value.string (ascii "hello")) =
      RtResult.ok (Value.number (FP.fin ⟨5, 1⟩)) ∧
    (∀ v, yar_is_string v = false →
      yar_len v = yar_error (ascii "len() requires string, got " ++
        yar_type_name v)) ∧
    (∃ line, yar_len (Value.number (FP.fin ⟨5, 1⟩)) = RtResult.fatal line 1) := by
  refine ⟨fun s => rfl, by decide, fun v h => ?_, ⟨_, rfl⟩⟩
  cases v <;> first | rfl | simp [yar_is_string, tagOf] at h

/-- Witness for C6 at a number operand. -/
theorem C6_len_w :
    yar_len (Value.number (FP.fin ⟨5, 1⟩)) =
      yar_error (ascii "len() requires string, got " ++
        yar_type_name (Value.number (FP.fin ⟨5, 1⟩))) :=
  C6_len.2.2.1 (Value.number (FP.fin ⟨5, 1⟩)) (by decide)

/-- C7: the type-name table maps each tag to its fixed lowercase label and
any unrecognized tag to "unknown"; the builtin type returns a string with
exactly that label; and for every constructed value exactly the predicate
of its variant is true while the other four are false. -/
theorem C7_type_names :
    (typeNameOfTag 0 = ascii "nil" ∧ typeNameOfTag 1 = ascii "bool" ∧
      typeNameOfTag 2 = ascii "number" ∧ typeNameOfTag 3 = ascii "string" ∧
      typeNameOfTag 4 = ascii "function") ∧
    (∀ t, 5 ≤ t → typeNameOfTag t = ascii "unknown") ∧
    (∀ v, yar_type v = Value.string (yar_type_name v)) ∧
    (yar_type_name Value.nil = ascii "nil" ∧
      (∀ b, yar_type_name (Value.bool b) = ascii "bool") ∧
      (∀ d, yar_type_name (Value.number d) = ascii "number") ∧
      (∀ s, yar_type_name (Value.string s) = ascii "string") ∧
      (∀ p n a, yar_type_name (Value.function p n a) = ascii "function")) ∧
    (yar_is_nil Value.nil = true ∧ yar_is_bool Value.nil = false ∧
      yar_is_number Value.nil = false ∧ yar_is_string Value.nil = false ∧
      yar_is_function Value.nil = false) ∧
    (∀ b, yar_is_nil (Value.bool b) = false ∧
      yar_is_bool (Value.bool b) = true ∧
      yar_is_number (Value.bool b) = false ∧
      yar_is_string (Value.bool b) = false ∧
      yar_is_function (Value.bool b) = false) ∧
    (∀ d, yar_is_nil (Value.number d) = false ∧
      yar_is_bool (Value.number d) = false ∧
      yar_is_number (Value.number d) = true ∧
      yar_is_string (Value.number d) = false ∧
      yar_is_function (Value.number d) = false) ∧
    (∀ s, yar_is_nil (Value.string s) = false ∧
      yar_is_bool (Value.string s) = false ∧
      yar_is_number (Value.string s) = false ∧
      yar_is_string (Value.string s) = true ∧
      yar_is_function (Value.string s) = false) ∧
    (∀ p n a, yar_is_nil (Value.function p n a) = false ∧
      yar_is_bool (Value.function p n a) = false ∧
      yar_is_number (Value.function p n a) = false ∧
      yar_is_string (Value.function p n a) = false ∧
      yar_is_function (Value.function p n a) = true) := by
  refine ⟨⟨rfl, rfl, rfl, rfl, rfl⟩, fun t ht => ?_, fun v => rfl,
    ⟨rfl, fun b => rfl, fun d => rfl, fun s => rfl, fun p n a => rfl⟩,
    ⟨rfl, rfl, rfl, rfl, rfl⟩,
    fun b => ⟨rfl, rfl, rfl, rfl, rfl⟩, fun d => ⟨rfl, rfl, rfl, rfl, rfl⟩,
    fun s => ⟨rfl, rfl, rfl, rfl, rfl⟩,
    fun p n a => ⟨rfl, rfl, rfl, rfl, rfl⟩⟩
  unfold typeNameOfTag
  rw [if_neg (by omega), if_neg (by omega), if_neg (by omega),
    if_neg (by omega), if_neg (by omega)]

/-- Witness for C7 at the out-of-enum tag 7. -/
theorem C7_type_names_w : typeNameOfTag 7 = ascii "unknown" :=
  C7_type_names.2.1 7 (by decide)

/-- C8: equality is reflexive for Nil, Bool, String and finite (non-NaN)
Number values, NaN is never equal to itself, yar_eq is symmetric, two
Function values are always unequal, and yar_neq is the boolean negation of
yar_eq. -/
theorem C8_eq_algebra :
    yar_eq Value.nil Value.nil = Value.bool true ∧
    (∀ b, yar_eq (Value.bool b) (Value.bool b) = Value.bool true) ∧
    (∀ q : Q, yar_eq (Value.number (FP.fin q)) (Value.number (FP.fin q)) =
      Value.bool true) ∧
    (∀ s, yar_eq (Value.string s) (Value.string s) = Value.bool true) ∧
    yar_eq (Value.number FP.nan) (Value.number FP.nan) = Value.bool false ∧
    (∀ a b, yar_eq a b = yar_eq b a) ∧
    (∀ p n a p2 n2 a2,
      yar_eq (Value.function p n a) (Value.function p2 n2 a2) =
        Value.bool false) ∧
    (∀ a b, ∃ c, yar_eq a b = Value.bool c ∧
      yar_neq a b = Value.bool (!c)) := by
  refine ⟨rfl, fun b => ?_, fun q => ?_, fun s => ?_, rfl, yar_eq_comm,
    fun p n a p2 n2 a2 => rfl, fun a b => ?_⟩
  · exact congrArg yar_bool (beq_self_eq_true b)
  · exact congrArg yar_bool (beq_self_eq_true (q.num * q.den))
  · exact congrArg yar_bool (beq_self_eq_true s)
  · cases a <;> cases b <;> exact ⟨_, rfl, rfl⟩

/-- C9 counterexample: yar_print renders the double 123456789 as
"1.23457e+08" (the %g conversion), but that text denotes the decimal value
123457000, whose nearest double is 123457000 itself — a different double
than 123456789 (which is exactly representable).  So the printed text does
not round-trip to the same double, refuting "shortest round-trippable
decimal" rendering. -/
theorem C9_print_counterexample :
    yar_print (Value.number (FP.fin ⟨123456789, 1⟩)) = ascii "1.23457e+08" ∧
    specDecimalValue (ascii "1.23457e+08") =
      some (Q.mul ⟨123457, 100000⟩ (qpow10 8)) ∧
    Q.eqb (Q.mul ⟨123457, 100000⟩ (qpow10 8)) ⟨123457000, 1⟩ = true ∧
    Q.eqb (specRoundToDouble (Q.mul ⟨123457, 100000⟩ (qpow10 8)))
      ⟨123457000, 1⟩ = true ∧
    Q.eqb (specRoundToDouble (Q.mul ⟨123457, 100000⟩ (qpow10 8)))
      ⟨123456789, 1⟩ = false ∧
    Q.eqb (specRoundToDouble ⟨123456789, 1⟩) ⟨123456789, 1⟩ = true := by
  decide

/-- C9 amended: print renders nil as "nil", a bool as "true"/"false", a
number by the C %g conversion with its default precision of six significant
digits (not always round-trippable), a string as its raw bytes and a
function as "<function>"; println appends exactly one newline.  Sample
number renderings: 5 prints "5", 2.5 prints "2.5", 123456789 prints
"1.23457e+08". -/
theorem C9_print_amended :
    yar_print Value.nil = ascii "nil" ∧
    (∀ b, yar_print (Value.bool b) =
      (if b then ascii "true" else ascii "false")) ∧
    (∀ d, yar_print (Value.number d) = fmtG d) ∧
    (∀ s, yar_print (Value.string s) = s) ∧
    (∀ p n a, yar_print (Value.function p n a) = ascii "<function>") ∧
    (∀ v, yar_println v = yar_print v ++ [10]) ∧
    fmtG (FP.fin ⟨5, 1⟩) = ascii "5" ∧
    fmtG (FP.fin ⟨25, 10⟩) = ascii "2.5" ∧
    fmtG (FP.fin ⟨123456789, 1⟩) = ascii "1.23457e+08" :=
  ⟨rfl, fun b => rfl, fun d => rfl, fun s => rfl, fun p n a => rfl,
    fun v => rfl, by decide, by decide, by decide⟩

/-- C10: modulo has no zero-divisor guard: when both operands cast to long
but the divisor truncates to 0, execution reaches the unguarded integer
remainder (undefined behavior in the embedding) and not the "Division by
zero" fatal error, which divide does raise on the same divisor. -/
theorem C10_modulo_no_zero_check :
    (∀ x y i, FP.toLong x = some i → FP.toLong y = some 0 →
      yar_modulo (Value.number x) (Value.number y) = RtResult.undef ∧
      yar_modulo (Value.number x) (Value.number y) ≠
        yar_error (ascii "Division by zero")) ∧
    yar_divide (Value.number (FP.fin ⟨10, 1⟩)) (Value.number (FP.fin ⟨0, 1⟩)) =
      yar_error (ascii "Division by zero") := by
  refine ⟨fun x y i hx hy => ?_, by decide⟩
  have h : yar_modulo (Value.number x) (Value.number y) = RtResult.undef := by
    simp only [yar_modulo, hx, hy, if_pos]
  exact ⟨h, by rw [h]; decide⟩

/-- Witness for C10 at 10 mod 0. -/
theorem C10_modulo_no_zero_check_w :
    yar_modulo (Value.number (FP.fin ⟨10, 1⟩)) (Value.number (FP.fin ⟨0, 1⟩)) =
      RtResult.undef ∧
    yar_modulo (Value.number (FP.fin ⟨10, 1⟩)) (Value.number (FP.fin ⟨0, 1⟩)) ≠
      yar_error (ascii "Division by zero") :=
  C10_modulo_no_zero_check.1 (FP.fin ⟨10, 1⟩) (FP.fin ⟨0, 1⟩) 10 (by decide)
    (by decide)

end Yarlang
